import Mathlib

/-!
Verification of the Kube-Agent Slack bot (TypeScript sources) against its
natural-language specification.

Shallow embedding of:
* `src/agent/tools.ts`   — tool dispatch registry (`toolDefinitions`, `executeTool`)
* `src/agent/agent.ts`   — agent orchestration loop (`analyzeQuestion`, `MAX_ITERATIONS`)
* `src/slack/handlers.ts`— command builder session state machine
  (`isWriteAction`, `buildCommandBuilderBlocks`, `executeCommand`,
  `executeCommandWithScale`, the `cmd_*` action handlers)

The Kubernetes client (`src/kubernetes/client.ts`, the spec's "Cluster
Capability Surface") is an external collaborator; it is modelled as an
oracle (`Cluster`): a record of functions, one per named operation, each
returning `Except String α` (`.error` models a thrown exception).  Every
embedded code path additionally returns the list of Capability Surface
calls it performed (`K8sCall`), so that read-only / write reachability and
call-counting claims can be stated.
-/

/-- JavaScript truthiness of an optional string: `undefined` and `""` are falsy. -/
def truthy : Option String → Bool
  | none => false
  | some s => s ≠ ""

/-- JavaScript `a || b` on optional strings (`b` when `a` is falsy). -/
def jsOr (a b : Option String) : Option String :=
  if truthy a then a else b

/-- JavaScript template interpolation of a possibly-undefined string. -/
def jsStr : Option String → String
  | none => "undefined"
  | some s => s

/-- JavaScript `x.value || ''`: an absent value becomes the empty string. -/
def jsOrEmpty (o : Option String) : String := o.getD ""

/-- JavaScript `n || d` for a possibly-undefined number (`0` is falsy). -/
def jsNumOr (o : Option Int) (d : Int) : Int :=
  match o with
  | none => d
  | some n => if n = 0 then d else n

/-- JavaScript `s || d` for a possibly-null string (`null` and `""` are falsy). -/
def jsStrOr (o : Option String) (d : String) : String :=
  match o with
  | none => d
  | some s => if s = "" then d else s

/-- Digits-prefix parse helper for `jsParseInt`. -/
def parseDigits (cs : List Char) : Option Nat :=
  let ds := cs.takeWhile Char.isDigit
  if ds.isEmpty then none
  else some (ds.foldl (fun acc c => acc * 10 + (c.toNat - 48)) 0)

/-- JavaScript `Number.parseInt(s, 10)`: optional sign then a longest digit
prefix; `none` models `NaN`. -/
def jsParseInt (s : String) : Option Int :=
  match s.data.dropWhile (fun c => c = ' ') with
  | '-' :: rest => (parseDigits rest).map (fun n => -(n : Int))
  | '+' :: rest => (parseDigits rest).map (fun n => (n : Int))
  | cs => (parseDigits cs).map (fun n => (n : Int))

/-- JavaScript `[...new Set(l)]`: deduplicate keeping first occurrences. -/
def jsSetDedupAux : List String → List String → List String
  | [], _ => []
  | x :: xs, seen =>
    if x ∈ seen then jsSetDedupAux xs seen else x :: jsSetDedupAux xs (x :: seen)

/-- JavaScript `[...new Set(l)]`. -/
def jsSetDedup (l : List String) : List String := jsSetDedupAux l []

/-! ## Records returned by the Cluster Capability Surface (client.ts result shapes,
only the fields the embedded code reads). -/

structure PodInfo where
  «namespace» : String
  name : String
  status : String
  restarts : Int
  age : String
deriving DecidableEq, Repr

structure DeploymentInfo where
  «namespace» : String
  name : String
  replicas : String
deriving DecidableEq, Repr

structure ServiceInfo where
  «namespace» : String
  name : String
  type : String
  clusterIP : String
  ports : String
deriving DecidableEq, Repr

structure ConfigMapInfo where
  «namespace» : String
  name : String
  dataKeys : List String
deriving DecidableEq, Repr

structure IngressInfo where
  «namespace» : String
  name : String
  hosts : List String
  paths : String
deriving DecidableEq, Repr

structure HPAInfo where
  «namespace» : String
  name : String
  target : String
  currentReplicas : Int
  minReplicas : Int
  maxReplicas : Int
deriving DecidableEq, Repr

structure EventInfo where
  type : String
  reason : String
  involvedObject : String
  message : String
  count : Int
  lastTimestamp : String
deriving DecidableEq, Repr

structure MetricInfo where
  «namespace» : String
  name : String
  cpu : String
  memory : String
deriving DecidableEq, Repr

structure SecretInfo where
  name : String
  type : String
  dataKeys : String
deriving DecidableEq, Repr

structure ReplicaSetInfo where
  name : String
  replicas : String
  age : String
deriving DecidableEq, Repr

structure StatefulSetInfo where
  name : String
  replicas : String
  age : String
deriving DecidableEq, Repr

structure DaemonSetInfo where
  name : String
  desired : String
  ready : String
  age : String
deriving DecidableEq, Repr

structure JobInfo where
  name : String
  completions : String
  status : String
  age : String
deriving DecidableEq, Repr

structure CronJobInfo where
  name : String
  schedule : String
  lastSchedule : String
  active : String
deriving DecidableEq, Repr

structure NodeInfo where
  name : String
  status : String
  roles : String
  version : String
  age : String
deriving DecidableEq, Repr

structure PVCInfo where
  name : String
  status : String
  capacity : String
  storageClass : String
deriving DecidableEq, Repr

structure EndpointInfo where
  name : String
  endpoints : String
deriving DecidableEq, Repr

/-- One performed call against the Cluster Capability Surface, with the
argument values the embedded code passed. -/
inductive K8sCall where
  | getPods (ns : Option String)
  | describePod (name ns : Option String)
  | getPodLogs (name ns : Option String) (tailLines : Int) (container : Option String)
  | getPreviousPodLogs (name ns : Option String) (tailLines : Int) (container : Option String)
  | getEvents (ns : Option String)
  | getDeployments (ns : Option String)
  | getPodMetrics (ns : Option String)
  | getNamespaces
  | getServices (ns : Option String)
  | getConfigMaps (ns : Option String)
  | describeConfigMap (name ns : Option String)
  | getIngresses (ns : Option String)
  | getHPAs (ns : Option String)
  | getSecrets (ns : Option String)
  | getReplicaSets (ns : Option String)
  | getStatefulSets (ns : Option String)
  | getDaemonSets (ns : Option String)
  | getJobs (ns : Option String)
  | getCronJobs (ns : Option String)
  | getPVCs (ns : Option String)
  | getEndpoints (ns : Option String)
  | getNodes
  | getRolloutStatus (name ns : String)
  | getRolloutHistory (name ns : String)
  | deletePod (name ns : String)
  | deleteDeployment (name ns : String)
  | deleteService (name ns : String)
  | deleteConfigMap (name ns : String)
  | deleteJob (name ns : String)
  | restartDeployment (name ns : String)
  | scaleDeployment (name ns : String) (replicas : Int)
deriving DecidableEq, Repr

/-- WRITE partition of the Capability Surface (client.ts mutating operations). -/
def K8sCall.isWrite : K8sCall → Bool
  | .deletePod _ _ => true
  | .deleteDeployment _ _ => true
  | .deleteService _ _ => true
  | .deleteConfigMap _ _ => true
  | .deleteJob _ _ => true
  | .restartDeployment _ _ => true
  | .scaleDeployment _ _ _ => true
  | _ => false

/-- The Cluster Capability Surface as an oracle: one function per operation of
`src/kubernetes/client.ts`; `.error` models a thrown exception. -/
structure Cluster where
  getPods : Option String → Except String (List PodInfo)
  describePod : Option String → Option String → Except String String
  getPodLogs : Option String → Option String → Int → Option String → Except String String
  getPreviousPodLogs : Option String → Option String → Int → Option String → Except String String
  getEvents : Option String → Except String (List EventInfo)
  getDeployments : Option String → Except String (List DeploymentInfo)
  getPodMetrics : Option String → Except String (List MetricInfo)
  getNamespaces : Except String (List String)
  getServices : Option String → Except String (List ServiceInfo)
  getConfigMaps : Option String → Except String (List ConfigMapInfo)
  describeConfigMap : Option String → Option String → Except String String
  getIngresses : Option String → Except String (List IngressInfo)
  getHPAs : Option String → Except String (List HPAInfo)
  getSecrets : Option String → Except String (List SecretInfo)
  getReplicaSets : Option String → Except String (List ReplicaSetInfo)
  getStatefulSets : Option String → Except String (List StatefulSetInfo)
  getDaemonSets : Option String → Except String (List DaemonSetInfo)
  getJobs : Option String → Except String (List JobInfo)
  getCronJobs : Option String → Except String (List CronJobInfo)
  getPVCs : Option String → Except String (List PVCInfo)
  getEndpoints : Option String → Except String (List EndpointInfo)
  getNodes : Except String (List NodeInfo)
  getRolloutStatus : String → String → Except String String
  getRolloutHistory : String → String → Except String String
  deletePod : String → String → Except String String
  deleteDeployment : String → String → Except String String
  deleteService : String → String → Except String String
  deleteConfigMap : String → String → Except String String
  deleteJob : String → String → Except String String
  restartDeployment : String → String → Except String String
  scaleDeployment : String → String → Int → Except String String

/-! ## Tool Dispatch Registry (src/agent/tools.ts) -/

/-- One parameter of a tool's argument schema. -/
structure ParamSpec where
  name : String
  type : String
  description : String
deriving DecidableEq, Repr

/-- One entry of `toolDefinitions` (OpenAI function-calling descriptor). -/
structure ToolDef where
  name : String
  description : String
  parameters : List ParamSpec
  required : List String
deriving DecidableEq, Repr

/-- `toolDefinitions` from tools.ts: the registry exposed to the model. -/
def toolDefinitions : List ToolDef := [
  { name := "get_pods",
    description := "List all pods in a namespace or all namespaces. Use this to see the state of pods, their status, and restart counts.",
    parameters := [⟨"namespace", "string", "The namespace to list pods from. Leave empty for all namespaces."⟩],
    required := [] },
  { name := "describe_pod",
    description := "Get detailed information about a specific pod including container specs, resource limits, and current state. Essential for diagnosing OOMKills, CrashLoops, etc.",
    parameters := [⟨"name", "string", "The name of the pod"⟩, ⟨"namespace", "string", "The namespace of the pod"⟩],
    required := ["name", "namespace"] },
  { name := "get_pod_logs",
    description := "Get the logs from a pod. Use this to see error messages, exceptions, and application output.",
    parameters := [⟨"name", "string", "The name of the pod"⟩, ⟨"namespace", "string", "The namespace of the pod"⟩,
      ⟨"tail_lines", "number", "Number of lines to return from the end (default 100)"⟩,
      ⟨"container", "string", "Container name if pod has multiple containers (optional)"⟩],
    required := ["name", "namespace"] },
  { name := "get_previous_pod_logs",
    description := "Get logs from the previous instance of a pod (before it crashed/restarted). Very useful for crash analysis.",
    parameters := [⟨"name", "string", "The name of the pod"⟩, ⟨"namespace", "string", "The namespace of the pod"⟩,
      ⟨"tail_lines", "number", "Number of lines to return from the end (default 100)"⟩,
      ⟨"container", "string", "Container name if pod has multiple containers (optional)"⟩],
    required := ["name", "namespace"] },
  { name := "get_events",
    description := "Get recent Kubernetes events. Events show warnings, errors, OOMKills, scheduling issues, etc. This is usually the first thing to check.",
    parameters := [⟨"namespace", "string", "The namespace to get events from. Leave empty for all namespaces."⟩],
    required := [] },
  { name := "get_deployments",
    description := "List deployments to see replica counts and availability status.",
    parameters := [⟨"namespace", "string", "The namespace to list deployments from. Leave empty for all namespaces."⟩],
    required := [] },
  { name := "get_pod_metrics",
    description := "Get current CPU and memory usage for pods. Useful to check if pods are near their limits.",
    parameters := [⟨"namespace", "string", "The namespace to get metrics from. Leave empty for all namespaces."⟩],
    required := [] },
  { name := "get_namespaces",
    description := "List all namespaces in the cluster.",
    parameters := [],
    required := [] },
  { name := "get_services",
    description := "List Kubernetes services. Shows service type, cluster IP, and exposed ports.",
    parameters := [⟨"namespace", "string", "The namespace to list services from. Leave empty for all namespaces."⟩],
    required := [] },
  { name := "get_configmaps",
    description := "List ConfigMaps. Useful to see application configuration.",
    parameters := [⟨"namespace", "string", "The namespace to list configmaps from. Leave empty for all namespaces."⟩],
    required := [] },
  { name := "describe_configmap",
    description := "Get the content of a specific ConfigMap. Shows all keys and their values.",
    parameters := [⟨"name", "string", "The name of the configmap"⟩, ⟨"namespace", "string", "The namespace of the configmap"⟩],
    required := ["name", "namespace"] },
  { name := "get_ingresses",
    description := "List Ingress resources. Shows hosts, paths, and routing rules.",
    parameters := [⟨"namespace", "string", "The namespace to list ingresses from. Leave empty for all namespaces."⟩],
    required := [] },
  { name := "get_hpas",
    description := "List HorizontalPodAutoscalers. Shows min/max replicas, current replicas, and scaling targets.",
    parameters := [⟨"namespace", "string", "The namespace to list HPAs from. Leave empty for all namespaces."⟩],
    required := [] }
]

/-- The names of the registered tools (the `switch` cases of `executeTool`). -/
def toolNames : List String := toolDefinitions.map (fun t => t.name)

/-- The untyped `args: Record<string, unknown>` passed to `executeTool`, with
the fields the code reads (a missing key reads as `undefined` = `none`). -/
structure ToolArgs where
  name : Option String
  «namespace» : Option String
  tail_lines : Option Int
  container : Option String
deriving DecidableEq, Repr

/-- Empty argument record (`{}`). -/
def noArgs : ToolArgs := ⟨none, none, none, none⟩

/-- `executeTool` from tools.ts.  Returns the produced text payload together
with the list of Capability Surface calls performed.  The TypeScript
`try/catch` wraps the whole `switch`; since every case performs at most one
client call, the catch is modelled per call site, producing
`"Error executing <name>: <message>"` exactly as the catch block does. -/
def executeTool (c : Cluster) (name : String) (args : ToolArgs) : String × List K8sCall :=
  if name = "get_pods" then
    (match c.getPods args.«namespace» with
     | .ok pods =>
       if pods.length = 0 then "No pods found"
       else String.intercalate "\n" (pods.map (fun p =>
         p.«namespace» ++ "/" ++ p.name ++ " | Status: " ++ p.status ++
         " | Restarts: " ++ toString p.restarts ++ " | Age: " ++ p.age))
     | .error e => "Error executing " ++ name ++ ": " ++ e,
     [.getPods args.«namespace»])
  else if name = "describe_pod" then
    (match c.describePod args.name args.«namespace» with
     | .ok s => s
     | .error e => "Error executing " ++ name ++ ": " ++ e,
     [.describePod args.name args.«namespace»])
  else if name = "get_pod_logs" then
    let tl := jsNumOr args.tail_lines 100
    (match c.getPodLogs args.name args.«namespace» tl args.container with
     | .ok s => s
     | .error e => "Error executing " ++ name ++ ": " ++ e,
     [.getPodLogs args.name args.«namespace» tl args.container])
  else if name = "get_previous_pod_logs" then
    let tl := jsNumOr args.tail_lines 100
    (match c.getPreviousPodLogs args.name args.«namespace» tl args.container with
     | .ok s => s
     | .error e => "Error executing " ++ name ++ ": " ++ e,
     [.getPreviousPodLogs args.name args.«namespace» tl args.container])
  else if name = "get_events" then
    (match c.getEvents args.«namespace» with
     | .ok events =>
       if events.length = 0 then "No recent events"
       else String.intercalate "\n" (events.map (fun e =>
         "[" ++ e.type ++ "] " ++ e.reason ++ " on " ++ e.involvedObject ++ ": " ++
         e.message ++ " (x" ++ toString e.count ++ ", " ++ e.lastTimestamp ++ ")"))
     | .error e => "Error executing " ++ name ++ ": " ++ e,
     [.getEvents args.«namespace»])
  else if name = "get_deployments" then
    (match c.getDeployments args.«namespace» with
     | .ok deployments =>
       if deployments.length = 0 then "No deployments found"
       else String.intercalate "\n" (deployments.map (fun d =>
         d.«namespace» ++ "/" ++ d.name ++ " | Replicas: " ++ d.replicas))
     | .error e => "Error executing " ++ name ++ ": " ++ e,
     [.getDeployments args.«namespace»])
  else if name = "get_pod_metrics" then
    (match c.getPodMetrics args.«namespace» with
     | .ok metrics =>
       if metrics.length = 0 then "No metrics available (metrics-server may not be installed)"
       else String.intercalate "\n" (metrics.map (fun m =>
         m.«namespace» ++ "/" ++ m.name ++ " | CPU: " ++ m.cpu ++ " | Memory: " ++ m.memory))
     | .error e => "Error executing " ++ name ++ ": " ++ e,
     [.getPodMetrics args.«namespace»])
  else if name = "get_namespaces" then
    (match c.getNamespaces with
     | .ok namespaces => String.intercalate "\n" namespaces
     | .error e => "Error executing " ++ name ++ ": " ++ e,
     [.getNamespaces])
  else if name = "get_services" then
    (match c.getServices args.«namespace» with
     | .ok services =>
       if services.length = 0 then "No services found"
       else String.intercalate "\n" (services.map (fun s =>
         s.«namespace» ++ "/" ++ s.name ++ " | Type: " ++ s.type ++
         " | ClusterIP: " ++ s.clusterIP ++ " | Ports: " ++ s.ports))
     | .error e => "Error executing " ++ name ++ ": " ++ e,
     [.getServices args.«namespace»])
  else if name = "get_configmaps" then
    (match c.getConfigMaps args.«namespace» with
     | .ok configmaps =>
       if configmaps.length = 0 then "No configmaps found"
       else String.intercalate "\n" (configmaps.map (fun cm =>
         cm.«namespace» ++ "/" ++ cm.name ++ " | Keys: " ++
         (if String.intercalate ", " cm.dataKeys = "" then "none"
          else String.intercalate ", " cm.dataKeys)))
     | .error e => "Error executing " ++ name ++ ": " ++ e,
     [.getConfigMaps args.«namespace»])
  else if name = "describe_configmap" then
    (match c.describeConfigMap args.name args.«namespace» with
     | .ok s => s
     | .error e => "Error executing " ++ name ++ ": " ++ e,
     [.describeConfigMap args.name args.«namespace»])
  else if name = "get_ingresses" then
    (match c.getIngresses args.«namespace» with
     | .ok ingresses =>
       if ingresses.length = 0 then "No ingresses found"
       else String.intercalate "\n" (ingresses.map (fun i =>
         i.«namespace» ++ "/" ++ i.name ++ " | Hosts: " ++
         String.intercalate ", " i.hosts ++ " | Paths: " ++ i.paths))
     | .error e => "Error executing " ++ name ++ ": " ++ e,
     [.getIngresses args.«namespace»])
  else if name = "get_hpas" then
    (match c.getHPAs args.«namespace» with
     | .ok hpas =>
       if hpas.length = 0 then "No HPAs found"
       else String.intercalate "\n" (hpas.map (fun h =>
         h.«namespace» ++ "/" ++ h.name ++ " | Target: " ++ h.target ++ " | Replicas: " ++
         toString h.currentReplicas ++ "/" ++ toString h.minReplicas ++ "-" ++ toString h.maxReplicas))
     | .error e => "Error executing " ++ name ++ ": " ++ e,
     [.getHPAs args.«namespace»])
  else
    ("Unknown tool: " ++ name, [])

/-! ## Agent Orchestration Loop (src/agent/agent.ts) -/

/-- The fixed system instruction (`SYSTEM_PROMPT` in agent.ts; apostrophes
written as `\x27`). -/
def SYSTEM_PROMPT : String :=
  "You are Mobula\x27s Kubernetes operations assistant. You help the team diagnose and troubleshoot Kubernetes issues.

Your job is to:
1. Understand the user\x27s question about their Kubernetes cluster
2. Use the available tools to gather information (READ-ONLY)
3. Analyze the data and provide a clear diagnosis
4. Suggest actionable solutions

CRITICAL SECURITY RULE:
- You are READ-ONLY. You can ONLY use tools that read/get information.
- You CANNOT delete, restart, scale, or modify any resources.
- If a user asks you to delete/restart/scale something, tell them to use the command builder: \"@bot command\"
- The command builder has write permissions with confirmation, you do not.
- NEVER attempt to execute destructive operations, even if the user insists.

Guidelines:
- Always start by gathering relevant events if the issue is unclear
- For pod issues, check pod status, describe the pod, and look at logs
- For OOMKill issues, compare memory limits vs actual usage
- For CrashLoopBackOff, check previous logs to see why the container crashed
- Be concise but thorough in your analysis
- If you suggest a fix, provide the exact kubectl command OR tell them to use \"@bot command\"

SLACK FORMATTING (IMPORTANT - use this syntax, NOT markdown):
- Bold: *text* (NOT **text**)
- Italic: _text_ (NOT *text*)
- Strikethrough: ~text~
- Code inline: `code`
- Code block: ```code```
- Bullet points: • or -
- Use emojis for visual clarity: 🔴 🟡 🟢 ⚠️ ✅ ❌ 🔧 📊

RESPONSE FORMAT - Always structure your response like this:

[EMOJI] *TITLE*

*Summary:* One sentence overview

*Details:*
• Item 1: description
• Item 2: description

*Recommended Actions:*
1. First action
2. Second action

```
kubectl command here
```

Example for pod issues:
🔴 *3 Pods with errors detected*

*Summary:* 3 pods have crash issues in services-prod

*Affected Pods:*
• `listener-bnb-backfilling-1` - CrashLoopBackOff (1569 restarts)
• `listener-zetachain` - Unstable (1509 restarts)
• `explorer-api` - CrashLoopBackOff (361 restarts)

*Probable Cause:* OOMKill - insufficient memory

*Recommended Actions:*
1. Check logs: `kubectl logs <pod> -n services-prod --previous`
2. Increase memory limits

Common namespaces in this cluster:
- services-prod: Production services
- services-preprod: Pre-production/staging services
- argocd: ArgoCD deployments
- prometheus-stack: Monitoring

Always provide actionable insights, not just raw data dumps. Keep responses concise and scannable."

/-- A prior conversation turn (`ConversationMessage` in agent.ts). -/
inductive Role where
  | user
  | assistant
deriving DecidableEq, Repr

structure ConversationMessage where
  role : Role
  content : String
deriving DecidableEq, Repr

/-- One tool call requested by the model.  The JSON argument decoding
(`JSON.parse(toolCall.function.arguments || '{}')`) is a platform builtin and
is modelled as already-decoded arguments. -/
structure ToolCall where
  id : String
  name : String
  args : ToolArgs
deriving DecidableEq, Repr

/-- The assistant message returned by one model-backend call: optional text
plus zero or more requested tool calls (`content` may be `null`). -/
structure AssistantMsg where
  content : Option String
  tool_calls : List ToolCall
deriving DecidableEq, Repr

/-- One entry of the working conversation (`messages` array in agent.ts). -/
inductive Msg where
  | system (content : String)
  | user (content : String)
  | assistant (m : AssistantMsg)
  | tool (tool_call_id : String) (content : String)
deriving DecidableEq, Repr

/-- The model backend: one request/response call on the working conversation
(`openai.chat.completions.create`; the declared tools and `tool_choice` are
fixed).  `none` models a response with no message
(`response.choices[0]?.message` missing). -/
def Backend : Type := List Msg → Option AssistantMsg

/-- The terminal result of one run (`AgentResult` in agent.ts). -/
structure AgentResult where
  answer : String
  toolsUsed : List String
deriving DecidableEq, Repr

/-- `MAX_ITERATIONS` from agent.ts. -/
def MAX_ITERATIONS : Nat := 10

/-- The fixed bound-exhaustion answer (agent.ts, apostrophes as `\x27`). -/
def LIMIT_MESSAGE : String :=
  "⚠️ I\x27ve gathered a lot of information but reached my analysis limit. Here\x27s what I found so far - please ask a more specific question if you need more details."

/-- The seed conversation: system instruction, prior history in order, then
the new user turn (agent.ts lines 100-109). -/
def seedMessages (question : String) (conversationHistory : List ConversationMessage) : List Msg :=
  Msg.system SYSTEM_PROMPT ::
    (conversationHistory.map (fun m =>
      match m.role with
      | .user => Msg.user m.content
      | .assistant => Msg.assistant ⟨some m.content, []⟩)
    ++ [Msg.user question])

/-- The `while (iterations < MAX_ITERATIONS)` loop of `analyzeQuestion`,
with the remaining iteration budget as fuel.  Returns the run result
(`.error` models the thrown `No response from OpenAI`) paired with the
number of model-backend calls made.  Tool calls of one iteration are issued
concurrently in the source; their results are modelled in request order. -/
def agentLoop (c : Cluster) (b : Backend) : Nat → List Msg → List String → Except String AgentResult × Nat
  | 0, _, toolsUsed =>
    (.ok ⟨LIMIT_MESSAGE, jsSetDedup toolsUsed⟩, 0)
  | fuel + 1, messages, toolsUsed =>
    match b messages with
    | none => (.error "No response from OpenAI", 1)
    | some message =>
      let messages := messages ++ [Msg.assistant message]
      if message.tool_calls.isEmpty then
        (.ok ⟨jsStrOr message.content "I was unable to analyze this issue.", jsSetDedup toolsUsed⟩, 1)
      else
        let toolResults := message.tool_calls.map (fun tc =>
          Msg.tool tc.id (executeTool c tc.name tc.args).1)
        let toolsUsed := toolsUsed ++ message.tool_calls.map (fun tc => tc.name)
        let r := agentLoop c b fuel (messages ++ toolResults) toolsUsed
        (r.1, r.2 + 1)

/-- `analyzeQuestion` from agent.ts, instrumented with the count of
model-backend calls made. -/
def analyzeQuestion (c : Cluster) (b : Backend) (question : String)
    (conversationHistory : List ConversationMessage) : Except String AgentResult × Nat :=
  agentLoop c b MAX_ITERATIONS (seedMessages question conversationHistory) []

/-! ## Command Builder Session State Machine (src/slack/handlers.ts) -/

/-- `isWriteAction` from handlers.ts: actions requiring confirmation. -/
def isWriteAction (action : String) : Bool :=
  ["delete", "restart", "scale"].contains action

/-- One entry of the `ACTIONS` dropdown list. -/
structure ActionEntry where
  text : String
  value : String
  write : Bool
deriving DecidableEq, Repr

/-- `ACTIONS` from handlers.ts. -/
def ACTIONS : List ActionEntry := [
  ⟨"get - List resources", "get", false⟩,
  ⟨"logs - View pod logs", "logs", false⟩,
  ⟨"logs-previous - View previous pod logs (crashed)", "logs-previous", false⟩,
  ⟨"describe - Resource details", "describe", false⟩,
  ⟨"top - CPU/Memory metrics", "top", false⟩,
  ⟨"events - K8s events", "events", false⟩,
  ⟨"rollout-status - Deployment rollout status", "rollout-status", false⟩,
  ⟨"rollout-history - Deployment revision history", "rollout-history", false⟩,
  ⟨"[WRITE] delete - Delete a resource", "delete", true⟩,
  ⟨"[WRITE] restart - Restart a deployment", "restart", true⟩,
  ⟨"[WRITE] scale - Scale a deployment", "scale", true⟩
]

/-- `RESOURCE_TYPES` from handlers.ts as (text, value) pairs. -/
def RESOURCE_TYPES : List (String × String) := [
  ("pods", "pods"), ("deployments", "deployments"), ("services", "services"),
  ("configmaps", "configmaps"), ("ingresses", "ingresses"), ("hpa", "hpa"),
  ("secrets", "secrets"), ("replicasets", "replicasets"), ("statefulsets", "statefulsets"),
  ("daemonsets", "daemonsets"), ("jobs", "jobs"), ("cronjobs", "cronjobs"),
  ("nodes", "nodes"), ("pvc", "pvc"), ("endpoints", "endpoints")
]

/-- The native confirm dialog attached to a Slack button. -/
structure ConfirmDialog where
  title : String
  text : String
  confirmLabel : String
  denyLabel : String
  style : String
deriving DecidableEq, Repr

/-- A Slack button element.  `value` models the `JSON.stringify`-ed payload
structurally as the named selection fields. -/
structure Button where
  text : String
  style : String
  action_id : String
  confirm : Option ConfirmDialog
  value : List (String × Option String)
deriving DecidableEq, Repr

/-- The Slack Block Kit blocks produced by the builder render, restricted to
the block shapes handlers.ts constructs.  A `sectionSelect` is a section with
a `static_select` accessory: its `action_id`, its options as (text, value)
pairs, and its `initial_option` as an optional (text, value) pair. -/
inductive Block where
  | header (text : String)
  | «section» (text : String)
  | sectionSelect (text action_id : String) (options : List (String × String)) (initial : Option (String × String))
  | divider
  | inputBlock (block_id action_id : String)
  | actions (buttons : List Button)
deriving DecidableEq, Repr

/-- The execute button pushed by `buildCommandBuilderBlocks` (handlers.ts
lines 417-444), as a function of the current selections: destructive styling,
text and an attached native confirm dialog exactly when the selected action
is a WRITE action. -/
def execButtonOf (selectedAction selectedNamespace selectedResourceType selectedResourceName : Option String) :
    Button :=
  let isWrite := if truthy selectedAction then isWriteAction (jsOrEmpty selectedAction) else false
  { text := if isWrite then "CONFIRM" else "Execute",
    style := if isWrite then "danger" else "primary",
    action_id := "cmd_execute",
    confirm :=
      if isWrite then
        some { title := "Are you sure?",
               text := "You are about to *" ++ jsStr selectedAction ++ "* `" ++
                 jsStr (jsOr selectedResourceName selectedResourceType) ++ "` in `" ++
                 jsStr selectedNamespace ++ "`. This action cannot be undone.",
               confirmLabel := "Yes, do it",
               denyLabel := "Cancel",
               style := "danger" }
      else none,
    value := [("action", selectedAction), ("namespace", selectedNamespace),
              ("resourceType", selectedResourceType), ("resourceName", selectedResourceName)] }

/-- `buildCommandBuilderBlocks` from handlers.ts.  Selections are optional
strings; JavaScript truthiness (`undefined` and `""` falsy) governs every
conditional, matching the source. -/
def buildCommandBuilderBlocks (c : Cluster)
    (selectedAction selectedNamespace selectedResourceType selectedResourceName : Option String) :
    List Block :=
  let namespaces : List String :=
    match c.getNamespaces with
    | .ok l => l
    | .error _ => ["services-prod", "services-preprod", "argocd"]
  let resources : List String :=
    if truthy selectedNamespace && truthy selectedResourceType then
      let ns := some (jsOrEmpty selectedNamespace)
      match jsOrEmpty selectedResourceType with
      | "pods" => (match c.getPods ns with | .ok l => l.map (fun x => x.name) | .error _ => [])
      | "deployments" => (match c.getDeployments ns with | .ok l => l.map (fun x => x.name) | .error _ => [])
      | "services" => (match c.getServices ns with | .ok l => l.map (fun x => x.name) | .error _ => [])
      | "configmaps" => (match c.getConfigMaps ns with | .ok l => l.map (fun x => x.name) | .error _ => [])
      | "ingresses" => (match c.getIngresses ns with | .ok l => l.map (fun x => x.name) | .error _ => [])
      | "hpa" => (match c.getHPAs ns with | .ok l => l.map (fun x => x.name) | .error _ => [])
      | "secrets" => (match c.getSecrets ns with | .ok l => l.map (fun x => x.name) | .error _ => [])
      | "replicasets" => (match c.getReplicaSets ns with | .ok l => l.map (fun x => x.name) | .error _ => [])
      | "statefulsets" => (match c.getStatefulSets ns with | .ok l => l.map (fun x => x.name) | .error _ => [])
      | "daemonsets" => (match c.getDaemonSets ns with | .ok l => l.map (fun x => x.name) | .error _ => [])
      | "jobs" => (match c.getJobs ns with | .ok l => l.map (fun x => x.name) | .error _ => [])
      | "cronjobs" => (match c.getCronJobs ns with | .ok l => l.map (fun x => x.name) | .error _ => [])
      | "pvc" => (match c.getPVCs ns with | .ok l => l.map (fun x => x.name) | .error _ => [])
      | "endpoints" => (match c.getEndpoints ns with | .ok l => l.map (fun x => x.name) | .error _ => [])
      | "nodes" => (match c.getNodes with | .ok l => l.map (fun x => x.name) | .error _ => [])
      | _ => []
    else []
  let sa := jsOrEmpty selectedAction
  let isWrite := if truthy selectedAction then isWriteAction sa else false
  let commandPreview :=
    (if sa = "restart" then "kubectl rollout restart"
     else if sa = "scale" then "kubectl scale --replicas=?"
     else if truthy selectedAction then "kubectl " ++ sa
     else "kubectl")
    ++ (if truthy selectedResourceType then " " ++ jsOrEmpty selectedResourceType else "")
    ++ (if truthy selectedResourceName then " " ++ jsOrEmpty selectedResourceName else "")
    ++ (if truthy selectedNamespace then " -n " ++ jsOrEmpty selectedNamespace else "")
  [Block.header "Kubernetes Command Builder",
   Block.«section» "Select options to build your kubectl command:",
   Block.divider,
   Block.sectionSelect "*Action:*" "cmd_action" (ACTIONS.map (fun a => (a.text, a.value)))
     (if truthy selectedAction then
        some ((match ACTIONS.find? (fun a => a.value == sa) with
               | some a => a.text
               | none => sa), sa)
      else none),
   Block.sectionSelect "*Namespace:*" "cmd_namespace"
     ((namespaces.take 100).map (fun n => (n, n)))
     (if truthy selectedNamespace then
        some (jsOrEmpty selectedNamespace, jsOrEmpty selectedNamespace)
      else none),
   Block.sectionSelect "*Resource Type:*" "cmd_resource_type" RESOURCE_TYPES
     (if truthy selectedResourceType then
        some ((match RESOURCE_TYPES.find? (fun r => r.2 == jsOrEmpty selectedResourceType) with
               | some r => r.1
               | none => jsOrEmpty selectedResourceType), jsOrEmpty selectedResourceType)
      else none)]
  ++ (if resources.length > 0 then
       [Block.sectionSelect "*Resource Name:*" "cmd_resource_name"
         ((resources.take 100).map (fun r =>
           (if r.length > 75 then r.take 72 ++ "..." else r,
            if r.length > 75 then r.take 75 else r)))
         (if truthy selectedResourceName then
            let rn := jsOrEmpty selectedResourceName
            some (if rn.length > 75 then rn.take 72 ++ "..." else rn,
                  if rn.length > 75 then rn.take 75 else rn)
          else none)]
      else [])
  ++ [Block.divider]
  ++ (if isWrite then
       [Block.«section» "*WARNING: This is a WRITE operation that will modify the cluster!*"]
      else [])
  ++ [Block.«section» ("*Command:* `" ++ commandPreview ++ "`")]
  ++ (if sa = "scale" then [Block.inputBlock "scale_replicas_block" "cmd_scale_replicas"] else [])
  ++ [Block.actions [execButtonOf selectedAction selectedNamespace selectedResourceType selectedResourceName,
        { text := "Cancel", style := "danger", action_id := "cmd_cancel",
          confirm := none, value := [] }]]

/-- Extract the execute button of a rendered builder message: the button with
`action_id = "cmd_execute"` of the actions block, which the builder always
pushes last. -/
def getExecButton (blocks : List Block) : Option Button :=
  match blocks.getLast? with
  | some (.actions btns) => btns.find? (fun b => b.action_id == "cmd_execute")
  | _ => none

/-- The `initial_option` of the resource-name selector of a render, when that
selector is present. -/
def resourceNameInitial (blocks : List Block) : Option (String × String) :=
  match blocks.find? (fun b =>
    match b with
    | .sectionSelect _ aid _ _ => aid == "cmd_resource_name"
    | _ => false) with
  | some (.sectionSelect _ _ _ initial) => initial
  | _ => none

/-- `executeCommand` from handlers.ts: dispatch of one built command to the
Capability Surface.  Returns the result text and the calls performed; the
surrounding `try/catch` (which yields `"Error: <message>"`) is modelled at
each call site. -/
def executeCommand (c : Cluster) (action «namespace» resourceType : String)
    (resourceName : String) : String × List K8sCall :=
  let ns := some «namespace»
  if action = "get" then
    if resourceType = "pods" then
      (match c.getPods ns with
       | .ok l => if l.length = 0 then "No pods found"
           else String.intercalate "\n" (l.map (fun p =>
             p.name ++ " | " ++ p.status ++ " | Restarts: " ++ toString p.restarts ++ " | Age: " ++ p.age))
       | .error e => "Error: " ++ e, [.getPods ns])
    else if resourceType = "deployments" then
      (match c.getDeployments ns with
       | .ok l => if l.length = 0 then "No deployments found"
           else String.intercalate "\n" (l.map (fun d => d.name ++ " | Replicas: " ++ d.replicas))
       | .error e => "Error: " ++ e, [.getDeployments ns])
    else if resourceType = "services" then
      (match c.getServices ns with
       | .ok l => if l.length = 0 then "No services found"
           else String.intercalate "\n" (l.map (fun s =>
             s.name ++ " | " ++ s.type ++ " | " ++ s.clusterIP ++ " | Ports: " ++ s.ports))
       | .error e => "Error: " ++ e, [.getServices ns])
    else if resourceType = "configmaps" then
      (match c.getConfigMaps ns with
       | .ok l => if l.length = 0 then "No configmaps found"
           else String.intercalate "\n" (l.map (fun cm =>
             cm.name ++ " | Keys: " ++ String.intercalate ", " cm.dataKeys))
       | .error e => "Error: " ++ e, [.getConfigMaps ns])
    else if resourceType = "ingresses" then
      (match c.getIngresses ns with
       | .ok l => if l.length = 0 then "No ingresses found"
           else String.intercalate "\n" (l.map (fun i =>
             i.name ++ " | Hosts: " ++ String.intercalate ", " i.hosts))
       | .error e => "Error: " ++ e, [.getIngresses ns])
    else if resourceType = "hpa" then
      (match c.getHPAs ns with
       | .ok l => if l.length = 0 then "No HPAs found"
           else String.intercalate "\n" (l.map (fun h =>
             h.name ++ " | Target: " ++ h.target ++ " | " ++ toString h.currentReplicas ++ "/" ++
             toString h.minReplicas ++ "-" ++ toString h.maxReplicas))
       | .error e => "Error: " ++ e, [.getHPAs ns])
    else if resourceType = "secrets" then
      (match c.getSecrets ns with
       | .ok l => if l.length = 0 then "No secrets found"
           else String.intercalate "\n" (l.map (fun s =>
             s.name ++ " | Type: " ++ s.type ++ " | Keys: " ++ s.dataKeys))
       | .error e => "Error: " ++ e, [.getSecrets ns])
    else if resourceType = "replicasets" then
      (match c.getReplicaSets ns with
       | .ok l => if l.length = 0 then "No replicasets found"
           else String.intercalate "\n" (l.map (fun r =>
             r.name ++ " | Replicas: " ++ r.replicas ++ " | Age: " ++ r.age))
       | .error e => "Error: " ++ e, [.getReplicaSets ns])
    else if resourceType = "statefulsets" then
      (match c.getStatefulSets ns with
       | .ok l => if l.length = 0 then "No statefulsets found"
           else String.intercalate "\n" (l.map (fun s =>
             s.name ++ " | Replicas: " ++ s.replicas ++ " | Age: " ++ s.age))
       | .error e => "Error: " ++ e, [.getStatefulSets ns])
    else if resourceType = "daemonsets" then
      (match c.getDaemonSets ns with
       | .ok l => if l.length = 0 then "No daemonsets found"
           else String.intercalate "\n" (l.map (fun d =>
             d.name ++ " | Desired: " ++ d.desired ++ " | Ready: " ++ d.ready ++ " | Age: " ++ d.age))
       | .error e => "Error: " ++ e, [.getDaemonSets ns])
    else if resourceType = "jobs" then
      (match c.getJobs ns with
       | .ok l => if l.length = 0 then "No jobs found"
           else String.intercalate "\n" (l.map (fun j =>
             j.name ++ " | " ++ j.completions ++ " | " ++ j.status ++ " | Age: " ++ j.age))
       | .error e => "Error: " ++ e, [.getJobs ns])
    else if resourceType = "cronjobs" then
      (match c.getCronJobs ns with
       | .ok l => if l.length = 0 then "No cronjobs found"
           else String.intercalate "\n" (l.map (fun cj =>
             cj.name ++ " | Schedule: " ++ cj.schedule ++ " | Last: " ++ cj.lastSchedule ++
             " | Active: " ++ cj.active))
       | .error e => "Error: " ++ e, [.getCronJobs ns])
    else if resourceType = "nodes" then
      (match c.getNodes with
       | .ok l => if l.length = 0 then "No nodes found"
           else String.intercalate "\n" (l.map (fun n =>
             n.name ++ " | " ++ n.status ++ " | Roles: " ++ n.roles ++ " | Version: " ++
             n.version ++ " | Age: " ++ n.age))
       | .error e => "Error: " ++ e, [.getNodes])
    else if resourceType = "pvc" then
      (match c.getPVCs ns with
       | .ok l => if l.length = 0 then "No PVCs found"
           else String.intercalate "\n" (l.map (fun p =>
             p.name ++ " | " ++ p.status ++ " | " ++ p.capacity ++ " | StorageClass: " ++ p.storageClass))
       | .error e => "Error: " ++ e, [.getPVCs ns])
    else if resourceType = "endpoints" then
      (match c.getEndpoints ns with
       | .ok l => if l.length = 0 then "No endpoints found"
           else String.intercalate "\n" (l.map (fun ep =>
             ep.name ++ " | Endpoints: " ++ ep.endpoints))
       | .error e => "Error: " ++ e, [.getEndpoints ns])
    else ("Unsupported resource type: " ++ resourceType, [])
  else if action = "logs" then
    if resourceName = "" then ("Pod name required for logs", [])
    else (match c.getPodLogs (some resourceName) ns 100 none with
          | .ok s => s
          | .error e => "Error: " ++ e, [.getPodLogs (some resourceName) ns 100 none])
  else if action = "logs-previous" then
    if resourceName = "" then ("Pod name required for previous logs", [])
    else (match c.getPreviousPodLogs (some resourceName) ns 100 none with
          | .ok s => s
          | .error e => "Error: " ++ e, [.getPreviousPodLogs (some resourceName) ns 100 none])
  else if action = "describe" then
    if resourceName = "" then ("Resource name required", [])
    else if resourceType = "pods" then
      (match c.describePod (some resourceName) ns with
       | .ok s => s
       | .error e => "Error: " ++ e, [.describePod (some resourceName) ns])
    else if resourceType = "configmaps" then
      (match c.describeConfigMap (some resourceName) ns with
       | .ok s => s
       | .error e => "Error: " ++ e, [.describeConfigMap (some resourceName) ns])
    else ("Describe not supported for: " ++ resourceType, [])
  else if action = "top" then
    (match c.getPodMetrics ns with
     | .ok l => if l.length = 0 then "No metrics available"
         else String.intercalate "\n" (l.map (fun m =>
           m.name ++ " | CPU: " ++ m.cpu ++ " | Memory: " ++ m.memory))
     | .error e => "Error: " ++ e, [.getPodMetrics ns])
  else if action = "events" then
    (match c.getEvents ns with
     | .ok l => if l.length = 0 then "No recent events"
         else String.intercalate "\n" ((l.take 20).map (fun e =>
           "[" ++ e.type ++ "] " ++ e.reason ++ " on " ++ e.involvedObject ++ ": " ++ e.message))
     | .error e => "Error: " ++ e, [.getEvents ns])
  else if action = "rollout-status" then
    if resourceName = "" then ("Deployment name required", [])
    else if resourceType ≠ "deployments" then ("Rollout status only works with deployments", [])
    else (match c.getRolloutStatus resourceName «namespace» with
          | .ok s => s
          | .error e => "Error: " ++ e, [.getRolloutStatus resourceName «namespace»])
  else if action = "rollout-history" then
    if resourceName = "" then ("Deployment name required", [])
    else if resourceType ≠ "deployments" then ("Rollout history only works with deployments", [])
    else (match c.getRolloutHistory resourceName «namespace» with
          | .ok s => s
          | .error e => "Error: " ++ e, [.getRolloutHistory resourceName «namespace»])
  else if action = "delete" then
    if resourceName = "" then ("Resource name required for delete", [])
    else if resourceType = "pods" then
      (match c.deletePod resourceName «namespace» with
       | .ok s => s | .error e => "Error: " ++ e, [.deletePod resourceName «namespace»])
    else if resourceType = "deployments" then
      (match c.deleteDeployment resourceName «namespace» with
       | .ok s => s | .error e => "Error: " ++ e, [.deleteDeployment resourceName «namespace»])
    else if resourceType = "services" then
      (match c.deleteService resourceName «namespace» with
       | .ok s => s | .error e => "Error: " ++ e, [.deleteService resourceName «namespace»])
    else if resourceType = "configmaps" then
      (match c.deleteConfigMap resourceName «namespace» with
       | .ok s => s | .error e => "Error: " ++ e, [.deleteConfigMap resourceName «namespace»])
    else if resourceType = "jobs" then
      (match c.deleteJob resourceName «namespace» with
       | .ok s => s | .error e => "Error: " ++ e, [.deleteJob resourceName «namespace»])
    else ("Delete not supported for: " ++ resourceType, [])
  else if action = "restart" then
    if resourceName = "" then ("Deployment name required for restart", [])
    else if resourceType ≠ "deployments" then ("Restart only works with deployments", [])
    else (match c.restartDeployment resourceName «namespace» with
          | .ok s => s | .error e => "Error: " ++ e, [.restartDeployment resourceName «namespace»])
  else if action = "scale" then
    if resourceName = "" then ("Deployment name required for scale", [])
    else if resourceType ≠ "deployments" then ("Scale only works with deployments", [])
    else ("Scale requires replicas parameter - use the number input", [])
  else ("Unsupported action: " ++ action, [])

/-- `executeCommandWithScale` from handlers.ts. -/
def executeCommandWithScale (c : Cluster) (action «namespace» resourceType resourceName : String)
    (replicas : Int) : String × List K8sCall :=
  if action = "scale" && resourceType = "deployments" then
    (match c.scaleDeployment resourceName «namespace» replicas with
     | .ok s => s
     | .error e => "Error: " ++ e, [.scaleDeployment resourceName «namespace» replicas])
  else ("Invalid scale operation", [])

/-- The per-anchor session record stored in `commandBuilderState` (unset
selections are the empty string; `scaleReplicas` and `pendingConfirmation`
are declared in the source but never written by any handler). -/
structure SessionState where
  action : String
  «namespace» : String
  resourceType : String
  resourceName : String
  messageTs : String
  scaleReplicas : Option Int
  pendingConfirmation : Option Bool
deriving DecidableEq, Repr

/-- The `commandBuilderState` map (key `"<channel>:<messageTs>"`). -/
def Store : Type := String → Option SessionState

/-- `Map.set`. -/
def setKey (store : Store) (k : String) (v : SessionState) : Store :=
  fun k' => if k' = k then some v else store k'

/-- `Map.delete`. -/
def deleteKey (store : Store) (k : String) : Store :=
  fun k' => if k' = k then none else store k'

/-- The empty map. -/
def emptyStore : Store := fun _ => none

/-- The defensive default record handlers substitute for a missing key. -/
def defaultSession (messageTs : String) : SessionState :=
  ⟨"", "", "", "", messageTs, none, none⟩

/-- The session key `"${channel}:${messageTs}"` (both possibly-undefined
Slack fields, as the handlers receive them). -/
def stateKeyOf (channel messageTs : Option String) : String :=
  jsOrEmpty channel ++ ":" ++ jsOrEmpty messageTs

/-- Output of a selection handler: the updated store and, when the guards
passed, the re-rendered builder blocks (`chat.update`). -/
structure SelectOut where
  store : Store
  render : Option (List Block)

/-- The `cmd_action` handler: records the selected action and re-renders. -/
def cmdActionHandler (c : Cluster) (store : Store) (channel messageTs : Option String)
    (selectedValue : Option String) : SelectOut :=
  let selectedAction := jsOrEmpty selectedValue
  if truthy channel && truthy messageTs then
    let stateKey := stateKeyOf channel messageTs
    let st := (store stateKey).getD (defaultSession (jsOrEmpty messageTs))
    let st := { st with action := selectedAction }
    ⟨setKey store stateKey st,
     some (buildCommandBuilderBlocks c (some st.action) (some st.«namespace»)
       (some st.resourceType) (some st.resourceName))⟩
  else ⟨store, none⟩

/-- The `cmd_namespace` handler: records the namespace and resets
`resourceName` ("Reset resource name when namespace changes"). -/
def cmdNamespaceHandler (c : Cluster) (store : Store) (channel messageTs : Option String)
    (selectedValue : Option String) : SelectOut :=
  let selectedNamespace := jsOrEmpty selectedValue
  if truthy channel && truthy messageTs then
    let stateKey := stateKeyOf channel messageTs
    let st := (store stateKey).getD (defaultSession (jsOrEmpty messageTs))
    let st := { st with «namespace» := selectedNamespace, resourceName := "" }
    ⟨setKey store stateKey st,
     some (buildCommandBuilderBlocks c (some st.action) (some st.«namespace»)
       (some st.resourceType) (some st.resourceName))⟩
  else ⟨store, none⟩

/-- The `cmd_resource_type` handler: records the type and resets
`resourceName` ("Reset resource name when type changes"). -/
def cmdResourceTypeHandler (c : Cluster) (store : Store) (channel messageTs : Option String)
    (selectedValue : Option String) : SelectOut :=
  let selectedResourceType := jsOrEmpty selectedValue
  if truthy channel && truthy messageTs then
    let stateKey := stateKeyOf channel messageTs
    let st := (store stateKey).getD (defaultSession (jsOrEmpty messageTs))
    let st := { st with resourceType := selectedResourceType, resourceName := "" }
    ⟨setKey store stateKey st,
     some (buildCommandBuilderBlocks c (some st.action) (some st.«namespace»)
       (some st.resourceType) (some st.resourceName))⟩
  else ⟨store, none⟩

/-- The `cmd_resource_name` handler: records the resource name. -/
def cmdResourceNameHandler (c : Cluster) (store : Store) (channel messageTs : Option String)
    (selectedValue : Option String) : SelectOut :=
  let selectedResourceName := jsOrEmpty selectedValue
  if truthy channel && truthy messageTs then
    let stateKey := stateKeyOf channel messageTs
    let st := (store stateKey).getD (defaultSession (jsOrEmpty messageTs))
    let st := { st with resourceName := selectedResourceName }
    ⟨setKey store stateKey st,
     some (buildCommandBuilderBlocks c (some st.action) (some st.«namespace»)
       (some st.resourceType) (some st.resourceName))⟩
  else ⟨store, none⟩

/-- The number-input state carried by the execute event
(`body.state?.values?.['scale_replicas_block']?.['cmd_scale_replicas']`):
`none` when the block is absent, otherwise its possibly-null `value`. -/
def scaleInput (replicasState : Option (Option String)) : Option Int :=
  match replicasState with
  | none => none
  | some v => jsParseInt (jsStrOr v "0")

/-- The warning posted when a required selection is missing. -/
def selectWarning : String :=
  "⚠️ Please select at least an action, namespace, and resource type."

/-- The warning posted when `scale` lacks a replica count. -/
def replicasWarning : String :=
  "⚠️ Please enter the number of replicas for scale operation."

/-- Output of the `cmd_execute` handler: the updated store, the Capability
Surface calls performed, and the texts posted to the channel. -/
structure ExecOut where
  store : Store
  calls : List K8sCall
  posts : List String

/-- The `cmd_execute` handler from handlers.ts: validation, optional replica
parsing, command-string construction, dispatch, result posting (with the
2900-character truncation), and deletion of the session record. -/
def cmdExecuteHandler (c : Cluster) (store : Store) (channel messageTs : Option String)
    (replicasState : Option (Option String)) : ExecOut :=
  if truthy channel && truthy messageTs then
    let stateKey := stateKeyOf channel messageTs
    match store stateKey with
    | none => ⟨store, [], [selectWarning]⟩
    | some state =>
      if state.action = "" ∨ state.«namespace» = "" ∨ state.resourceType = "" then
        ⟨store, [], [selectWarning]⟩
      else
        let scaleReplicas : Option Int :=
          if state.action = "scale" then scaleInput replicasState else none
        if state.action = "scale" ∧ scaleReplicas = none then
          ⟨store, [], [replicasWarning]⟩
        else
          let commandStr :=
            if state.action = "restart" then
              "kubectl rollout restart deployment " ++ state.resourceName ++ " -n " ++ state.«namespace»
            else if state.action = "scale" then
              "kubectl scale deployment " ++ state.resourceName ++ " --replicas=" ++
                toString (scaleReplicas.getD 0) ++ " -n " ++ state.«namespace»
            else
              "kubectl " ++ state.action ++ " " ++ state.resourceType ++
                (if state.resourceName ≠ "" then " " ++ state.resourceName else "") ++
                " -n " ++ state.«namespace»
          let isWrite := isWriteAction state.action
          let result :=
            if state.action = "scale" ∧ scaleReplicas ≠ none then
              executeCommandWithScale c state.action state.«namespace» state.resourceType
                state.resourceName (scaleReplicas.getD 0)
            else
              executeCommand c state.action state.«namespace» state.resourceType state.resourceName
          let truncatedResult :=
            if result.1.length > 2900 then result.1.take 2900 ++ "...\n\n_[Output truncated]_"
            else result.1
          let prefixMark := if isWrite then "⚠️ *[WRITE]*" else "✅"
          ⟨deleteKey store stateKey, result.2,
           [prefixMark ++ " *Command:* `" ++ commandStr ++ "`\n\n```\n" ++ truncatedResult ++ "\n```"]⟩
  else ⟨store, [], []⟩

/-- The `cmd_cancel` handler: clears the builder UI and deletes the session. -/
def cmdCancelHandler (store : Store) (channel messageTs : Option String) : Store :=
  if truthy channel && truthy messageTs then deleteKey store (stateKeyOf channel messageTs)
  else store

/-- Validation predicate of the `cmd_execute` handler: a session record is
present with `action`, `namespace` and `resourceType` all set. -/
def sessionComplete : Option SessionState → Bool
  | none => false
  | some s => !(s.action == "") && !(s.«namespace» == "") && !(s.resourceType == "")

/-! ## Concrete instances used to exercise the definitions -/

/-- A cluster oracle on which every operation succeeds with small fixed data. -/
def testCluster : Cluster where
  getPods := fun _ => .ok [⟨"prod", "api-1", "Running", 0, "1d"⟩]
  describePod := fun _ _ => .ok "pod details"
  getPodLogs := fun _ _ _ _ => .ok "log line"
  getPreviousPodLogs := fun _ _ _ _ => .ok "old log line"
  getEvents := fun _ => .ok []
  getDeployments := fun _ => .ok [⟨"prod", "api", "2/2"⟩]
  getPodMetrics := fun _ => .ok []
  getNamespaces := .ok ["prod", "staging"]
  getServices := fun _ => .ok []
  getConfigMaps := fun _ => .ok []
  describeConfigMap := fun _ _ => .ok "cm details"
  getIngresses := fun _ => .ok []
  getHPAs := fun _ => .ok []
  getSecrets := fun _ => .ok []
  getReplicaSets := fun _ => .ok []
  getStatefulSets := fun _ => .ok []
  getDaemonSets := fun _ => .ok []
  getJobs := fun _ => .ok []
  getCronJobs := fun _ => .ok []
  getPVCs := fun _ => .ok []
  getEndpoints := fun _ => .ok []
  getNodes := .ok []
  getRolloutStatus := fun _ _ => .ok "rolled out"
  getRolloutHistory := fun _ _ => .ok "history"
  deletePod := fun n ns => .ok ("deleted pod " ++ n ++ " in " ++ ns)
  deleteDeployment := fun n ns => .ok ("deleted deployment " ++ n ++ " in " ++ ns)
  deleteService := fun n ns => .ok ("deleted service " ++ n ++ " in " ++ ns)
  deleteConfigMap := fun n ns => .ok ("deleted configmap " ++ n ++ " in " ++ ns)
  deleteJob := fun n ns => .ok ("deleted job " ++ n ++ " in " ++ ns)
  restartDeployment := fun n ns => .ok ("restarted " ++ n ++ " in " ++ ns)
  scaleDeployment := fun n ns r => .ok ("scaled " ++ n ++ " in " ++ ns ++ " to " ++ toString r)

/-- A cluster oracle on which every operation throws with message `msg`. -/
def failingCluster (msg : String) : Cluster where
  getPods := fun _ => .error msg
  describePod := fun _ _ => .error msg
  getPodLogs := fun _ _ _ _ => .error msg
  getPreviousPodLogs := fun _ _ _ _ => .error msg
  getEvents := fun _ => .error msg
  getDeployments := fun _ => .error msg
  getPodMetrics := fun _ => .error msg
  getNamespaces := .error msg
  getServices := fun _ => .error msg
  getConfigMaps := fun _ => .error msg
  describeConfigMap := fun _ _ => .error msg
  getIngresses := fun _ => .error msg
  getHPAs := fun _ => .error msg
  getSecrets := fun _ => .error msg
  getReplicaSets := fun _ => .error msg
  getStatefulSets := fun _ => .error msg
  getDaemonSets := fun _ => .error msg
  getJobs := fun _ => .error msg
  getCronJobs := fun _ => .error msg
  getPVCs := fun _ => .error msg
  getEndpoints := fun _ => .error msg
  getNodes := .error msg
  getRolloutStatus := fun _ _ => .error msg
  getRolloutHistory := fun _ _ => .error msg
  deletePod := fun _ _ => .error msg
  deleteDeployment := fun _ _ => .error msg
  deleteService := fun _ _ => .error msg
  deleteConfigMap := fun _ _ => .error msg
  deleteJob := fun _ _ => .error msg
  restartDeployment := fun _ _ => .error msg
  scaleDeployment := fun _ _ _ => .error msg

/-- A backend that always requests one `get_pods` tool call. -/
def loopBackend : Backend := fun _ => some ⟨none, [⟨"call_1", "get_pods", noArgs⟩]⟩

/-- A backend whose first response is text-only with empty text. -/
def emptyTextBackend : Backend := fun _ => some ⟨some "", []⟩

/-- A backend whose first response is text-only with nonempty text. -/
def helloBackend : Backend := fun _ => some ⟨some "hello", []⟩

/-- A complete READ session record. -/
def sessionGet : SessionState := ⟨"get", "prod", "pods", "api-1", "111", none, none⟩

/-- A complete `scale` session record. -/
def sessionScale : SessionState := ⟨"scale", "prod", "deployments", "api", "111", none, none⟩

/-- A session record with no action chosen. -/
def sessionNoAction : SessionState := ⟨"", "prod", "pods", "", "111", none, none⟩

/-- A store holding `sessionGet` at anchor `C:111`. -/
def storeGet : Store := setKey emptyStore "C:111" sessionGet

/-- A store holding `sessionScale` at anchor `C:111`. -/
def storeScale : Store := setKey emptyStore "C:111" sessionScale

/-- A store holding `sessionNoAction` at anchor `C:111`. -/
def storeNoAction : Store := setKey emptyStore "C:111" sessionNoAction

/-! ## Claims -/

/-- C1: Capability separation — for every tool of the registry
(`toolDefinitions`) and in fact for every tool name whatsoever, every
Capability Surface call reachable from `executeTool` is a READ operation:
no WRITE operation (`deletePod`, `deleteDeployment`, `deleteService`,
`deleteConfigMap`, `deleteJob`, `restartDeployment`, `scaleDeployment`)
ever appears in the performed-call trace. -/
theorem executeTool_capability_separation :
    ∀ (c : Cluster) (args : ToolArgs),
      (toolDefinitions.all (fun td =>
        (executeTool c td.name args).2.all (fun k => !k.isWrite))) = true ∧
      ∀ (name : String),
        ((executeTool c name args).2.all (fun k => !k.isWrite)) = true := by
  have h : ∀ (c : Cluster) (name : String) (args : ToolArgs),
      ((executeTool c name args).2.all (fun k => !k.isWrite)) = true := by
    intro c name args
    by_cases h1 : name = "get_pods"
    · subst h1; rfl
    by_cases h2 : name = "describe_pod"
    · subst h2; rfl
    by_cases h3 : name = "get_pod_logs"
    · subst h3; rfl
    by_cases h4 : name = "get_previous_pod_logs"
    · subst h4; rfl
    by_cases h5 : name = "get_events"
    · subst h5; rfl
    by_cases h6 : name = "get_deployments"
    · subst h6; rfl
    by_cases h7 : name = "get_pod_metrics"
    · subst h7; rfl
    by_cases h8 : name = "get_namespaces"
    · subst h8; rfl
    by_cases h9 : name = "get_services"
    · subst h9; rfl
    by_cases h10 : name = "get_configmaps"
    · subst h10; rfl
    by_cases h11 : name = "describe_configmap"
    · subst h11; rfl
    by_cases h12 : name = "get_ingresses"
    · subst h12; rfl
    by_cases h13 : name = "get_hpas"
    · subst h13; rfl
    simp only [executeTool, if_neg h1, if_neg h2, if_neg h3, if_neg h4, if_neg h5, if_neg h6, if_neg h7, if_neg h8, if_neg h9, if_neg h10, if_neg h11, if_neg h12, if_neg h13]
    rfl
  intro c args
  refine ⟨?_, fun name => h c name args⟩
  rw [List.all_eq_true]
  intro td _
  exact h c td.name args

/-- C5: `executeTool` never raises past its boundary: an unknown tool name
resolves to the payload `"Unknown tool: <name>"` with no Capability Surface
call, and when the underlying Capability Surface call throws (here: a
cluster on which every operation throws `msg`), the payload is exactly
`"Error executing <tool>: <message>"`. -/
theorem executeTool_error_handling :
    ∀ (args : ToolArgs) (msg name : String),
      (name ∉ toolNames → ∀ (c : Cluster),
        executeTool c name args = ("Unknown tool: " ++ name, [])) ∧
      (name ∈ toolNames →
        (executeTool (failingCluster msg) name args).1 = "Error executing " ++ name ++ ": " ++ msg) := by
  intro args msg name
  constructor
  · intro hn c
    by_cases h1 : name = "get_pods"
    · exact absurd (show name ∈ toolNames by rw [h1]; decide) hn
    by_cases h2 : name = "describe_pod"
    · exact absurd (show name ∈ toolNames by rw [h2]; decide) hn
    by_cases h3 : name = "get_pod_logs"
    · exact absurd (show name ∈ toolNames by rw [h3]; decide) hn
    by_cases h4 : name = "get_previous_pod_logs"
    · exact absurd (show name ∈ toolNames by rw [h4]; decide) hn
    by_cases h5 : name = "get_events"
    · exact absurd (show name ∈ toolNames by rw [h5]; decide) hn
    by_cases h6 : name = "get_deployments"
    · exact absurd (show name ∈ toolNames by rw [h6]; decide) hn
    by_cases h7 : name = "get_pod_metrics"
    · exact absurd (show name ∈ toolNames by rw [h7]; decide) hn
    by_cases h8 : name = "get_namespaces"
    · exact absurd (show name ∈ toolNames by rw [h8]; decide) hn
    by_cases h9 : name = "get_services"
    · exact absurd (show name ∈ toolNames by rw [h9]; decide) hn
    by_cases h10 : name = "get_configmaps"
    · exact absurd (show name ∈ toolNames by rw [h10]; decide) hn
    by_cases h11 : name = "describe_configmap"
    · exact absurd (show name ∈ toolNames by rw [h11]; decide) hn
    by_cases h12 : name = "get_ingresses"
    · exact absurd (show name ∈ toolNames by rw [h12]; decide) hn
    by_cases h13 : name = "get_hpas"
    · exact absurd (show name ∈ toolNames by rw [h13]; decide) hn
    simp only [executeTool, if_neg h1, if_neg h2, if_neg h3, if_neg h4, if_neg h5, if_neg h6, if_neg h7, if_neg h8, if_neg h9, if_neg h10, if_neg h11, if_neg h12, if_neg h13]
  · intro hn
    have hn' : name = "get_pods" ∨ name = "describe_pod" ∨ name = "get_pod_logs" ∨ name = "get_previous_pod_logs" ∨ name = "get_events" ∨ name = "get_deployments" ∨ name = "get_pod_metrics" ∨ name = "get_namespaces" ∨ name = "get_services" ∨ name = "get_configmaps" ∨ name = "describe_configmap" ∨ name = "get_ingresses" ∨ name = "get_hpas" := by
      simpa [toolNames, toolDefinitions] using hn
    rcases hn' with rfl|rfl|rfl|rfl|rfl|rfl|rfl|rfl|rfl|rfl|rfl|rfl|rfl
    · rfl
    · rfl
    · rfl
    · rfl
    · rfl
    · rfl
    · rfl
    · rfl
    · rfl
    · rfl
    · rfl
    · rfl
    · rfl

/-- Witness for C5 at concrete inputs: `"bogus_tool"` is unknown and resolves
to the unknown-tool payload; `"get_pods"` against an always-throwing cluster
yields the wrapped error payload. -/
theorem executeTool_error_handling_witness :
    ("bogus_tool" ∉ toolNames ∧
      executeTool testCluster "bogus_tool" noArgs = ("Unknown tool: " ++ "bogus_tool", [])) ∧
    ("get_pods" ∈ toolNames ∧
      (executeTool (failingCluster "boom") "get_pods" noArgs).1 =
        "Error executing " ++ "get_pods" ++ ": " ++ "boom") :=
  ⟨⟨by decide, (executeTool_error_handling noArgs "boom" "bogus_tool").1 (by decide) testCluster⟩,
   ⟨by decide, (executeTool_error_handling noArgs "boom" "get_pods").2 (by decide)⟩⟩

/-- The loop makes at most `fuel` model-backend calls. -/
theorem agentLoop_calls_le (c : Cluster) (b : Backend) :
    ∀ (n : Nat) (msgs : List Msg) (used : List String),
      (agentLoop c b n msgs used).2 ≤ n := by
  intro n
  induction n with
  | zero => intro msgs used; simp [agentLoop]
  | succ k ih =>
    intro msgs used
    simp only [agentLoop]
    cases hb : b msgs with
    | none => simp
    | some m =>
      by_cases hm : m.tool_calls.isEmpty
      · simp [hm]
      · simp only [Bool.not_eq_true] at hm
        simp only [hm, Bool.false_eq_true, if_false]
        exact Nat.succ_le_succ (ih _ _)

/-- When every backend response requests tool calls, the loop exhausts its
fuel and returns the fixed limit message with a deduplicated tool set. -/
theorem agentLoop_exhaust (c : Cluster) (b : Backend)
    (H : ∀ msgs, ∃ m, b msgs = some m ∧ m.tool_calls ≠ []) :
    ∀ (n : Nat) (msgs : List Msg) (used : List String),
      ∃ u, agentLoop c b n msgs used = (.ok ⟨LIMIT_MESSAGE, jsSetDedup u⟩, n) := by
  intro n
  induction n with
  | zero => intro msgs used; exact ⟨used, rfl⟩
  | succ k ih =>
    intro msgs used
    obtain ⟨m, hb, hm⟩ := H msgs
    have hne : m.tool_calls.isEmpty = false := by
      cases hmc : m.tool_calls with
      | nil => exact absurd hmc hm
      | cons a t => rfl
    obtain ⟨u, hu⟩ := ih
      ((msgs ++ [Msg.assistant m]) ++
        m.tool_calls.map (fun tc => Msg.tool tc.id (executeTool c tc.name tc.args).1))
      (used ++ m.tool_calls.map (fun tc => tc.name))
    refine ⟨u, ?_⟩
    simp only [agentLoop, hb, hne, Bool.false_eq_true, if_false]
    rw [hu]

/-- C3: for every question, prior history, cluster and backend,
`analyzeQuestion` makes at most `MAX_ITERATIONS = 10` model-backend calls;
and when every response carries tool calls (so all 10 iterations do), it
returns the fixed analysis-limit message together with the deduplicated
list of the tools used. -/
theorem analyzeQuestion_bounded :
    ∀ (c : Cluster) (b : Backend) (q : String) (hist : List ConversationMessage),
      (analyzeQuestion c b q hist).2 ≤ MAX_ITERATIONS ∧
      ((∀ msgs, ∃ m, b msgs = some m ∧ m.tool_calls ≠ []) →
        ∃ u, analyzeQuestion c b q hist =
          (.ok ⟨LIMIT_MESSAGE, jsSetDedup u⟩, MAX_ITERATIONS)) := by
  intro c b q hist
  exact ⟨agentLoop_calls_le c b MAX_ITERATIONS _ _,
    fun H => agentLoop_exhaust c b H MAX_ITERATIONS _ _⟩

/-- Witness for C3: a backend that always requests `get_pods` drives the run
to the 10-call bound and the fixed limit message. -/
theorem analyzeQuestion_bounded_witness :
    (analyzeQuestion testCluster loopBackend "q" []).2 ≤ MAX_ITERATIONS ∧
    ∃ u, analyzeQuestion testCluster loopBackend "q" [] =
      (.ok ⟨LIMIT_MESSAGE, jsSetDedup u⟩, MAX_ITERATIONS) :=
  ⟨(analyzeQuestion_bounded testCluster loopBackend "q" []).1,
   (analyzeQuestion_bounded testCluster loopBackend "q" []).2
     (fun _ => ⟨⟨none, [⟨"call_1", "get_pods", noArgs⟩]⟩, rfl, by decide⟩)⟩

/-- C4 counterexample: a first response with zero tool calls whose text is
the empty string.  The code replaces the empty text by the fixed fallback
`"I was unable to analyze this issue."` — the returned `finalAnswer` is not
the response text verbatim. -/
theorem analyzeQuestion_first_response_counterexample :
    (analyzeQuestion testCluster emptyTextBackend "q" []).1 =
      .ok ⟨"I was unable to analyze this issue.", []⟩ ∧
    ("I was unable to analyze this issue." : String) ≠ "" := by
  exact ⟨rfl, by decide⟩

/-- C4 (amended): if the first backend response carries zero tool calls and a
nonempty text, `analyzeQuestion` returns that text verbatim with an empty
`toolsUsed`; an empty or missing text is replaced by the fixed fallback. -/
theorem analyzeQuestion_first_response_text :
    ∀ (c : Cluster) (b : Backend) (q : String) (hist : List ConversationMessage)
      (m : AssistantMsg) (t : String),
      b (seedMessages q hist) = some m → m.tool_calls = [] → m.content = some t → t ≠ "" →
      (analyzeQuestion c b q hist).1 = .ok ⟨t, []⟩ := by
  intro c b q hist m t hb hcalls ht hne
  show (agentLoop c b (9 + 1) (seedMessages q hist) []).1 = _
  simp only [agentLoop, hb, hcalls, List.isEmpty_nil, if_true]
  simp [jsStrOr, ht, hne, jsSetDedup, jsSetDedupAux]

/-- Witness for C4 (amended): a text-only first response `"hello"` is
returned verbatim with no tools used. -/
theorem analyzeQuestion_first_response_text_witness :
    (analyzeQuestion testCluster helloBackend "q" []).1 = .ok ⟨"hello", []⟩ :=
  analyzeQuestion_first_response_text testCluster helloBackend "q" []
    ⟨some "hello", []⟩ "hello" rfl rfl rfl (by decide)

set_option maxHeartbeats 1000000 in
/-- C2: every render of the command builder carries an execute button
(`execButtonOf`) whose native confirm dialog is attached exactly when the
selected action is a WRITE action — in which case it is also styled
`danger` — and `isWriteAction` classifies exactly
`{delete, restart, scale}` as WRITE. -/
theorem commandBuilder_confirm_gate :
    (∀ (c : Cluster) (a ns ty nm : Option String),
      getExecButton (buildCommandBuilderBlocks c a ns ty nm) = some (execButtonOf a ns ty nm) ∧
      (execButtonOf a ns ty nm).confirm.isSome =
        (truthy a && isWriteAction (jsOrEmpty a)) ∧
      (execButtonOf a ns ty nm).style =
        (if truthy a && isWriteAction (jsOrEmpty a) then "danger" else "primary")) ∧
    (∀ s, isWriteAction s = true ↔ (s = "delete" ∨ s = "restart" ∨ s = "scale")) := by
  constructor
  · intro c a ns ty nm
    refine ⟨?_, ?_, ?_⟩
    · simp only [buildCommandBuilderBlocks, getExecButton, List.getLast?_append]
      simp [List.find?, execButtonOf]
    · simp only [execButtonOf]
      cases h : truthy a
      · simp [h]
      · cases hw : isWriteAction (jsOrEmpty a) <;> simp [h, hw]
    · simp only [execButtonOf]
      cases h : truthy a
      · simp [h]
      · cases hw : isWriteAction (jsOrEmpty a) <;> simp [h, hw]
  · intro s
    simp [isWriteAction]

/-- C6: an execute event whose session is missing or has `action`,
`namespace` or `resourceType` unset makes no Capability Surface call, posts
the selection warning, and leaves the store (hence the session record)
unchanged. -/
theorem cmdExecute_rejects_incomplete :
    ∀ (c : Cluster) (store : Store) (ch ts : Option String) (rState : Option (Option String)),
      truthy ch = true → truthy ts = true →
      sessionComplete (store (stateKeyOf ch ts)) = false →
      (cmdExecuteHandler c store ch ts rState).store = store ∧
      (cmdExecuteHandler c store ch ts rState).calls = [] ∧
      (cmdExecuteHandler c store ch ts rState).posts = [selectWarning] := by
  intro c store ch ts rState hch hts hsess
  simp only [cmdExecuteHandler, hch, hts, Bool.and_self, if_true]
  cases hk : store (stateKeyOf ch ts) with
  | none => refine ⟨?_, ?_, ?_⟩ <;> trivial
  | some st =>
    rw [hk] at hsess
    have hcond : st.action = "" ∨ st.«namespace» = "" ∨ st.resourceType = "" := by
      simp only [sessionComplete, Bool.and_eq_false_iff, Bool.not_eq_false',
        beq_iff_eq] at hsess
      tauto
    simp only [if_pos hcond]
    refine ⟨?_, ?_, ?_⟩ <;> trivial

/-- Witness for C6: a stored session with no action chosen is rejected with
the warning and zero cluster calls. -/
theorem cmdExecute_rejects_incomplete_witness :
    (truthy (some "C") = true ∧ truthy (some "111") = true ∧
      sessionComplete (storeNoAction (stateKeyOf (some "C") (some "111"))) = false) ∧
    (cmdExecuteHandler testCluster storeNoAction (some "C") (some "111") none).store = storeNoAction ∧
    (cmdExecuteHandler testCluster storeNoAction (some "C") (some "111") none).calls = [] ∧
    (cmdExecuteHandler testCluster storeNoAction (some "C") (some "111") none).posts = [selectWarning] :=
  ⟨⟨rfl, rfl, by decide⟩,
   cmdExecute_rejects_incomplete testCluster storeNoAction (some "C") (some "111") none
     rfl rfl (by decide)⟩

/-- C7: for an execute event on a complete `scale` session: with no replica
input present the handler posts the replica warning and performs zero
Capability Surface calls, leaving the store unchanged; with replica input
`"3"` (and `resourceType = deployments`) it performs exactly one
`scaleDeployment` call with `replicas = 3`. -/
theorem cmdExecute_scale_replicas :
    ∀ (c : Cluster) (store : Store) (ch ts : Option String) (s : SessionState)
      (rState : Option (Option String)),
      truthy ch = true → truthy ts = true →
      store (stateKeyOf ch ts) = some s →
      s.action = "scale" → s.«namespace» ≠ "" → s.resourceType ≠ "" →
      ((rState = none →
        (cmdExecuteHandler c store ch ts rState).store = store ∧
        (cmdExecuteHandler c store ch ts rState).calls = [] ∧
        (cmdExecuteHandler c store ch ts rState).posts = [replicasWarning]) ∧
       (rState = some (some "3") → s.resourceType = "deployments" →
        (cmdExecuteHandler c store ch ts rState).calls =
          [K8sCall.scaleDeployment s.resourceName s.«namespace» 3])) := by
  intro c store ch ts s rState hch hts hk ha hns hty
  have hcond : ¬(s.action = "" ∨ s.«namespace» = "" ∨ s.resourceType = "") := by
    push_neg
    refine ⟨?_, hns, hty⟩
    rw [ha]; decide
  constructor
  · intro hr
    subst hr
    simp only [cmdExecuteHandler, hch, hts, Bool.and_self, if_true, hk, if_neg hcond]
    have hsc : scaleInput none = none := rfl
    simp [ha, hsc]
  · intro hr hdep
    subst hr
    have h3 : scaleInput (some (some "3")) = some 3 := by decide
    simp only [cmdExecuteHandler, hch, hts, Bool.and_self, if_true, hk, if_neg hcond]
    cases hcall : c.scaleDeployment s.resourceName s.«namespace» 3 with
    | ok r => simp [ha, h3, hdep, executeCommandWithScale, hcall]
    | error e => simp [ha, h3, hdep, executeCommandWithScale, hcall]

/-- Witness for C7: on the concrete `scale` session, absence of a replica
input yields the warning and zero calls, while input `"3"` yields exactly one
`scaleDeployment` call with `replicas = 3`. -/
theorem cmdExecute_scale_replicas_witness :
    (truthy (some "C") = true ∧ truthy (some "111") = true ∧
      storeScale (stateKeyOf (some "C") (some "111")) = some sessionScale ∧
      sessionScale.action = "scale" ∧ sessionScale.«namespace» ≠ "" ∧
      sessionScale.resourceType = "deployments") ∧
    ((cmdExecuteHandler testCluster storeScale (some "C") (some "111") none).calls = [] ∧
     (cmdExecuteHandler testCluster storeScale (some "C") (some "111") none).posts = [replicasWarning]) ∧
    (cmdExecuteHandler testCluster storeScale (some "C") (some "111") (some (some "3"))).calls =
      [K8sCall.scaleDeployment sessionScale.resourceName sessionScale.«namespace» 3] :=
  ⟨⟨rfl, rfl, by decide, rfl, by decide, rfl⟩,
   ⟨((cmdExecute_scale_replicas testCluster storeScale (some "C") (some "111") sessionScale none
        rfl rfl (by decide) rfl (by decide) (by decide)).1 rfl).2.1,
    ((cmdExecute_scale_replicas testCluster storeScale (some "C") (some "111") sessionScale none
        rfl rfl (by decide) rfl (by decide) (by decide)).1 rfl).2.2⟩,
   (cmdExecute_scale_replicas testCluster storeScale (some "C") (some "111") sessionScale
      (some (some "3")) rfl rfl (by decide) rfl (by decide) (by decide)).2 rfl rfl⟩

/-- C10: whenever an execute event passes validation (complete session, and
a parsable replica count when the action is `scale`), the session record for
the anchor is deleted from the store after the dispatch — for every cluster
oracle, including ones whose calls fail — and exactly one result message is
posted. -/
theorem cmdExecute_deletes_session :
    ∀ (c : Cluster) (store : Store) (ch ts : Option String) (s : SessionState)
      (rState : Option (Option String)),
      truthy ch = true → truthy ts = true →
      store (stateKeyOf ch ts) = some s →
      s.action ≠ "" → s.«namespace» ≠ "" → s.resourceType ≠ "" →
      (s.action = "scale" → scaleInput rState ≠ none) →
      (cmdExecuteHandler c store ch ts rState).store (stateKeyOf ch ts) = none ∧
      (cmdExecuteHandler c store ch ts rState).posts.length = 1 := by
  intro c store ch ts s rState hch hts hk hact hns hty hscale
  have hcond : ¬(s.action = "" ∨ s.«namespace» = "" ∨ s.resourceType = "") := by
    push_neg; exact ⟨hact, hns, hty⟩
  simp only [cmdExecuteHandler, hch, hts, Bool.and_self, if_true, hk, if_neg hcond]
  by_cases hs : s.action = "scale"
  · obtain ⟨r, hr⟩ : ∃ r, scaleInput rState = some r := by
      cases hsi : scaleInput rState with
      | none => exact absurd hsi (hscale hs)
      | some r => exact ⟨r, rfl⟩
    have hng : ¬(s.action = "scale" ∧ (if s.action = "scale" then scaleInput rState else none) = none) := by
      simp [hs, hr]
    simp only [if_neg hng]
    constructor
    · simp [deleteKey]
    · rfl
  · have hng : ¬(s.action = "scale" ∧ (if s.action = "scale" then scaleInput rState else none) = none) := by
      simp [hs]
    simp only [if_neg hng]
    constructor
    · simp [deleteKey]
    · rfl

/-- Witness for C10: executing the complete READ session deletes its record
and posts one result message, against a failing cluster as well. -/
theorem cmdExecute_deletes_session_witness :
    (truthy (some "C") = true ∧ truthy (some "111") = true ∧
      storeGet (stateKeyOf (some "C") (some "111")) = some sessionGet ∧
      sessionGet.action ≠ "" ∧ sessionGet.«namespace» ≠ "" ∧ sessionGet.resourceType ≠ "") ∧
    (cmdExecuteHandler (failingCluster "down") storeGet (some "C") (some "111") none).store
      (stateKeyOf (some "C") (some "111")) = none ∧
    (cmdExecuteHandler (failingCluster "down") storeGet (some "C") (some "111") none).posts.length = 1 :=
  ⟨⟨rfl, rfl, by decide, by decide, by decide, by decide⟩,
   cmdExecute_deletes_session (failingCluster "down") storeGet (some "C") (some "111") sessionGet none
     rfl rfl (by decide) (by decide) (by decide) (by decide)
     (fun h => absurd h (by decide))⟩

/-- Any block list of the shape the builder produces whose resource-name
selector (when present) carries no `initial_option` has no initially-selected
resource name. -/
theorem resourceNameInitial_aux (P1 P2 P3 : Prop) [Decidable P1] [Decidable P2] [Decidable P3]
    (aOpts nsOpts : List (String × String))
    (aInit nsInit tyInit : Option (String × String))
    (nmOpts : List (String × String)) (wTxt cmdTxt : String) (btns : List Button) :
    resourceNameInitial (
      [Block.header "Kubernetes Command Builder",
       Block.«section» "Select options to build your kubectl command:",
       Block.divider,
       Block.sectionSelect "*Action:*" "cmd_action" aOpts aInit,
       Block.sectionSelect "*Namespace:*" "cmd_namespace" nsOpts nsInit,
       Block.sectionSelect "*Resource Type:*" "cmd_resource_type" RESOURCE_TYPES tyInit]
      ++ (if P1 then [Block.sectionSelect "*Resource Name:*" "cmd_resource_name" nmOpts none] else [])
      ++ [Block.divider]
      ++ (if P2 then [Block.«section» wTxt] else [])
      ++ [Block.«section» cmdTxt]
      ++ (if P3 then [Block.inputBlock "scale_replicas_block" "cmd_scale_replicas"] else [])
      ++ [Block.actions btns]) = none := by
  by_cases h1 : P1 <;> by_cases h2 : P2 <;> by_cases h3 : P3 <;>
    simp [h1, h2, h3, resourceNameInitial, List.find?_append, List.find?]

/-- A render whose selected resource name is the cleared (empty) string shows
no initially-selected resource name, whether or not the resource-name
selector is present. -/
theorem resourceNameInitial_cleared (c : Cluster) (a ns ty : Option String) :
    resourceNameInitial (buildCommandBuilderBlocks c a ns ty (some "")) = none :=
  resourceNameInitial_aux _ _ _ _ _ _ _ _ _ _ _ _

/-- C8: a namespace-selection or resource-type-selection event against a
session clears any previously chosen `resourceName` — in the stored record
(set to the empty string, the other updated field being the selection
itself) and in the next render (the resource-name selector carries no
initial selection). -/
theorem selection_clears_resourceName :
    ∀ (c : Cluster) (store : Store) (ch ts v : Option String) (s : SessionState),
      truthy ch = true → truthy ts = true →
      store (stateKeyOf ch ts) = some s →
      ((cmdNamespaceHandler c store ch ts v).store (stateKeyOf ch ts) =
          some { s with «namespace» := jsOrEmpty v, resourceName := "" } ∧
        ∃ blocks, (cmdNamespaceHandler c store ch ts v).render = some blocks ∧
          resourceNameInitial blocks = none) ∧
      ((cmdResourceTypeHandler c store ch ts v).store (stateKeyOf ch ts) =
          some { s with resourceType := jsOrEmpty v, resourceName := "" } ∧
        ∃ blocks, (cmdResourceTypeHandler c store ch ts v).render = some blocks ∧
          resourceNameInitial blocks = none) := by
  intro c store ch ts v s hch hts hk
  constructor
  · constructor
    · simp only [cmdNamespaceHandler, hch, hts, Bool.and_self, if_true, hk,
        Option.getD_some, setKey]
    · refine ⟨buildCommandBuilderBlocks c (some s.action) (some (jsOrEmpty v))
          (some s.resourceType) (some ""), ?_, resourceNameInitial_cleared c _ _ _⟩
      simp only [cmdNamespaceHandler, hch, hts, Bool.and_self, if_true, hk,
        Option.getD_some]
  · constructor
    · simp only [cmdResourceTypeHandler, hch, hts, Bool.and_self, if_true, hk,
        Option.getD_some, setKey]
    · refine ⟨buildCommandBuilderBlocks c (some s.action) (some s.«namespace»)
          (some (jsOrEmpty v)) (some ""), ?_, resourceNameInitial_cleared c _ _ _⟩
      simp only [cmdResourceTypeHandler, hch, hts, Bool.and_self, if_true, hk,
        Option.getD_some]

/-- Witness for C8: changing the resource type after `sessionGet` chose
resource name `"api-1"` clears the name in store and render. -/
theorem selection_clears_resourceName_witness :
    (truthy (some "C") = true ∧ truthy (some "111") = true ∧
      storeGet (stateKeyOf (some "C") (some "111")) = some sessionGet) ∧
    (cmdResourceTypeHandler testCluster storeGet (some "C") (some "111")
        (some "deployments")).store (stateKeyOf (some "C") (some "111")) =
      some { sessionGet with resourceType := jsOrEmpty (some "deployments"), resourceName := "" } ∧
    ∃ blocks, (cmdResourceTypeHandler testCluster storeGet (some "C") (some "111")
        (some "deployments")).render = some blocks ∧ resourceNameInitial blocks = none :=
  ⟨⟨rfl, rfl, by decide⟩,
   ((selection_clears_resourceName testCluster storeGet (some "C") (some "111")
       (some "deployments") sessionGet rfl rfl (by decide)).2).1,
   ((selection_clears_resourceName testCluster storeGet (some "C") (some "111")
       (some "deployments") sessionGet rfl rfl (by decide)).2).2⟩

/-- C9 counterexample: a namespace-selection event on a session whose
`resourceName` was previously chosen changes TWO fields (`namespace` and
`resourceName`), not exactly one: from
`⟨"get", "prod", "pods", "api-1", …⟩` it produces
`⟨"get", "staging", "pods", "", …⟩`. -/
theorem selection_single_field_counterexample :
    (cmdNamespaceHandler testCluster storeGet (some "C") (some "111")
        (some "staging")).store "C:111" =
      some ⟨"get", "staging", "pods", "", "111", none, none⟩ ∧
    sessionGet.«namespace» ≠ "staging" ∧ sessionGet.resourceName ≠ "" := by
  refine ⟨?_, by decide, by decide⟩
  simp only [cmdNamespaceHandler, truthy, setKey]
  norm_num
  rfl

/-- C9 (amended): each selection event writes its own field with the selected
value and leaves every other field unchanged, except that the namespace and
resource-type events additionally reset `resourceName` to the empty string;
records at other anchors are untouched. -/
theorem selection_frame :
    ∀ (c : Cluster) (store : Store) (ch ts v : Option String) (s : SessionState),
      truthy ch = true → truthy ts = true →
      store (stateKeyOf ch ts) = some s →
      (cmdActionHandler c store ch ts v).store (stateKeyOf ch ts) =
        some { s with action := jsOrEmpty v } ∧
      (cmdNamespaceHandler c store ch ts v).store (stateKeyOf ch ts) =
        some { s with «namespace» := jsOrEmpty v, resourceName := "" } ∧
      (cmdResourceTypeHandler c store ch ts v).store (stateKeyOf ch ts) =
        some { s with resourceType := jsOrEmpty v, resourceName := "" } ∧
      (cmdResourceNameHandler c store ch ts v).store (stateKeyOf ch ts) =
        some { s with resourceName := jsOrEmpty v } ∧
      ∀ (k : String), k ≠ stateKeyOf ch ts →
        (cmdActionHandler c store ch ts v).store k = store k ∧
        (cmdNamespaceHandler c store ch ts v).store k = store k ∧
        (cmdResourceTypeHandler c store ch ts v).store k = store k ∧
        (cmdResourceNameHandler c store ch ts v).store k = store k := by
  intro c store ch ts v s hch hts hk
  refine ⟨?_, ?_, ?_, ?_, ?_⟩
  · simp only [cmdActionHandler, hch, hts, Bool.and_self, if_true, hk, Option.getD_some, setKey]
  · simp only [cmdNamespaceHandler, hch, hts, Bool.and_self, if_true, hk, Option.getD_some, setKey]
  · simp only [cmdResourceTypeHandler, hch, hts, Bool.and_self, if_true, hk, Option.getD_some, setKey]
  · simp only [cmdResourceNameHandler, hch, hts, Bool.and_self, if_true, hk, Option.getD_some, setKey]
  · intro k hkne
    refine ⟨?_, ?_, ?_, ?_⟩ <;>
      simp only [cmdActionHandler, cmdNamespaceHandler, cmdResourceTypeHandler,
        cmdResourceNameHandler, hch, hts, Bool.and_self, if_true, setKey, if_neg hkne]

/-- Witness for C9 (amended): a resource-name selection on `sessionGet`
updates only `resourceName`; the record at another anchor stays `none`. -/
theorem selection_frame_witness :
    (truthy (some "C") = true ∧ truthy (some "111") = true ∧
      storeGet (stateKeyOf (some "C") (some "111")) = some sessionGet) ∧
    (cmdResourceNameHandler testCluster storeGet (some "C") (some "111")
        (some "api-2")).store (stateKeyOf (some "C") (some "111")) =
      some { sessionGet with resourceName := jsOrEmpty (some "api-2") } :=
  ⟨⟨rfl, rfl, by decide⟩,
   (selection_frame testCluster storeGet (some "C") (some "111") (some "api-2") sessionGet
      rfl rfl (by decide)).2.2.2.1⟩
